import Mathlib

/-!
Verification of kodarch/templates/artisan/backend.main.py: a scaffolding
template that constructs one FastAPI application object and registers one
route, GET on the root path, whose handler returns a fixed dict.
-/

namespace Koda

/-- An HTTP request as the hosting framework receives it: method, path,
headers, query parameters and raw body. -/
structure Request where
  method : String
  path : String
  headers : List (String × String)
  queryParams : List (String × String)
  body : String

/-- An HTTP response: the numeric status and the serialized body. -/
structure Response where
  status : Nat
  body : String

/-- A route registered on the application. The handler of backend.main.py
declares no parameters, so handlers take no request data at all. -/
structure Route where
  method : String
  path : String
  handler : Unit → List (String × String)

/-- Line 8 of backend.main.py: the handler body returns the dict literal
mapping the key message to the greeting. A Python dict with string keys and
string values is embedded as an association list. -/
def read_root : List (String × String) := [("message", "Hello from FastAPI")]

/-- Line 3 of backend.main.py: the title keyword argument, the verbatim
template text carrying the double-braced PROJECT_NAME placeholder. -/
def app_title : String := "\x7b\x7bPROJECT_NAME\x7d\x7d API"

/-- The application object: a display title and the registered routes. -/
structure App where
  title : String
  routes : List Route

/-- Lines 3 and 6 of backend.main.py: the module-level application object,
constructed with the template title, after the decorator on line 6 has
registered read_root for method GET on path / at module load. -/
def app : App := ⟨app_title, [⟨"GET", "/", fun _ => read_root⟩]⟩

/-- Modelled from the spec: the hosting framework serializes the dict a
handler returns as a JSON object of string fields. -/
def renderJsonObject (d : List (String × String)) : String :=
  "\x7b" ++ String.intercalate (", ")
    (d.map fun p => "\"" ++ p.1 ++ "\": \"" ++ p.2 ++ "\"") ++ "\x7d"

/-- Modelled from the spec: the hosting framework dispatches a request to
the first registered route whose method and path both match, answering with
status 200 and the JSON rendering of the handler result; a request matching
no route falls through to framework default behavior, which this file does
not define, so the model answers none there. -/
def handle (a : App) (req : Request) : Option Response :=
  (a.routes.find? fun r => r.method == req.method && r.path == req.path).map
    fun r => ⟨200, renderJsonObject (r.handler ())⟩

/-- The server state this module can see: its only component is the
module-level application object. -/
structure ServerState where
  app : App

/-- The handler body with the module state passed explicitly: the body is a
single return of a literal, so it reads no state and leaves it unchanged. -/
def read_root_st (s : ServerState) : (List (String × String)) × ServerState :=
  (read_root, s)

/-- Repeated invocation of the handler, threading the server state. -/
def iterateHandler : Nat → ServerState → List (List (String × String)) × ServerState
  | 0, s => ([], s)
  | n + 1, s =>
    let p := read_root_st s
    let q := iterateHandler n p.2
    (p.1 :: q.1, q.2)

/-- Dispatch with the module state passed explicitly: the framework reads
the application object to find the route and writes nothing. -/
def handleSt (s : ServerState) (req : Request) : Option Response × ServerState :=
  (handle s.app req, s)

/-- The handler body as a fallible computation: it contains no raise and no
branch, so its translation is a single ok of the returned literal. -/
def read_root_exc : Except String (List (String × String)) := Except.ok read_root

/-- The placeholder token that line 3 embeds: double-braced PROJECT_NAME. -/
def placeholderToken : String := "\x7b\x7bPROJECT_NAME\x7d\x7d"

/-- Whether the pattern matches at the head of the text. -/
def matchesAt : List Char → List Char → Bool
  | [], _ => true
  | _ :: _, [] => false
  | p :: ps, c :: cs => p == c && matchesAt ps cs

/-- Whether the pattern occurs contiguously anywhere in the text. -/
def containsTok (pat : List Char) : List Char → Bool
  | [] => matchesAt pat []
  | c :: cs => matchesAt pat (c :: cs) || containsTok pat cs

/-- Modelled from the spec: one pass of the external generator, replacing
each occurrence of the pattern with the project name; the fuel argument, one
unit per character of the text, keeps the recursion structural. -/
def replaceTokFuel (pat N : List Char) : Nat → List Char → List Char
  | 0, s => s
  | _ + 1, [] => []
  | fuel + 1, c :: cs =>
    if matchesAt pat (c :: cs) then
      N ++ replaceTokFuel pat N fuel (List.drop (pat.length - 1) cs)
    else
      c :: replaceTokFuel pat N fuel cs

/-- Modelled from the spec: the generator substitution of the placeholder
token by the project name N inside one string literal. -/
def applyTemplate (N s : String) : String :=
  ⟨replaceTokFuel placeholderToken.data N.data s.data.length s.data⟩

/-- Modelled from the spec: the module after the external generator has
rewritten every string literal of the file with the project name N. -/
def generatedApp (N : String) : App :=
  ⟨applyTemplate N app_title,
   [⟨applyTemplate N ("GET"), applyTemplate N ("/"),
     fun _ => [(applyTemplate N ("message"), applyTemplate N ("Hello from FastAPI"))]⟩]⟩

/-- Helper: dispatching any GET request for the root path yields the fixed
200 response. -/
theorem handle_root (req : Request) (hm : req.method = "GET")
    (hp : req.path = "/") :
    handle app req = some ⟨200, ("\x7b\"message\": \"Hello from FastAPI\"\x7d")⟩ := by
  obtain ⟨m, p, hs, qs, b⟩ := req
  change m = ("GET") at hm
  change p = ("/") at hp
  subst hm
  subst hp
  rfl

/-- Helper: a request that is not a GET for the root path matches no route
registered by this file, so the model answers none. -/
theorem handle_nonroot (req : Request)
    (h : ¬(req.method = "GET" ∧ req.path = "/")) :
    handle app req = none := by
  obtain ⟨m, p, hs, qs, b⟩ := req
  have hb : (("GET" == m) && ("/" == p)) = false := by
    by_contra hc
    rw [Bool.not_eq_false, Bool.and_eq_true, beq_iff_eq, beq_iff_eq] at hc
    exact h ⟨hc.1.symm, hc.2.symm⟩
  simp only [handle, app, List.find?]
  rw [hb]
  rfl

/-- Helper: substitution is the identity on the greeting literal, for every
project name, since the literal contains no placeholder token. -/
theorem applyTemplate_greeting (N : String) :
    applyTemplate N ("Hello from FastAPI") = "Hello from FastAPI" := rfl

/-- Helper: the routes of the generated module coincide with the routes of
the template module, whatever the project name. -/
theorem generatedApp_routes (N : String) :
    (generatedApp N).routes = app.routes := rfl

/-- C1: every GET request to the root path is answered with status 200 and
a body equal exactly to the JSON object with the single field message set
to Hello from FastAPI. -/
theorem get_root_response (req : Request) (hm : req.method = "GET")
    (hp : req.path = "/") :
    handle app req = some ⟨200, ("\x7b\"message\": \"Hello from FastAPI\"\x7d")⟩ :=
  handle_root req hm hp

/-- Witness for C1 at a concrete GET request for the root path. -/
theorem get_root_response_witness :
    handle app ⟨"GET", "/", [], [], ""⟩ =
      some ⟨200, ("\x7b\"message\": \"Hello from FastAPI\"\x7d")⟩ :=
  get_root_response ⟨"GET", "/", [], [], ""⟩ rfl rfl

/-- C2: any number of repeated invocations of the handler returns the same
fixed payload every time and leaves the server state unchanged. -/
theorem read_root_idempotent (n : Nat) (s : ServerState) :
    iterateHandler n s = (List.replicate n read_root, s) := by
  induction n generalizing s with
  | zero => rfl
  | succ n ih => simp [iterateHandler, read_root_st, ih, List.replicate]

/-- C3: the response to the root route is independent of the request: any
two GET requests for the root path, whatever their headers, query
parameters or bodies, receive identical responses. -/
theorem root_input_independent (r1 r2 : Request) (h1m : r1.method = "GET")
    (h1p : r1.path = "/") (h2m : r2.method = "GET") (h2p : r2.path = "/") :
    handle app r1 = handle app r2 := by
  rw [handle_root r1 h1m h1p, handle_root r2 h2m h2p]

/-- Witness for C3 at two concrete root requests differing in headers,
query parameters and body. -/
theorem root_input_independent_witness :
    handle app ⟨"GET", "/", [("X-Header", "a")], [("q", "1")], "payload"⟩ =
      handle app ⟨"GET", "/", [], [], ""⟩ :=
  root_input_independent ⟨"GET", "/", [("X-Header", "a")], [("q", "1")], "payload"⟩
    ⟨"GET", "/", [], [], ""⟩ rfl rfl rfl rfl

/-- C4: the payload of the root handler is a mapping with exactly one
entry, the fixed string key message bound to the fixed string value Hello
from FastAPI. -/
theorem payload_single_pair :
    read_root.length = 1 ∧ read_root = [("message", "Hello from FastAPI")] :=
  ⟨rfl, rfl⟩

/-- C5: the title passed at construction is exactly the unmodified template
text, which contains the literal placeholder token. -/
theorem title_unsubstituted :
    app.title = ("\x7b\x7bPROJECT_NAME\x7d\x7d API") ∧
    containsTok placeholderToken.data app.title.data = true :=
  ⟨rfl, rfl⟩

/-- C6: the file registers exactly one route, GET on the root path, and any
request outside it matches no route of this file, falling through to
behavior this file does not define. -/
theorem single_route :
    app.routes.length = 1 ∧
    (app.routes.map fun r => (r.method, r.path)) = [("GET", "/")] ∧
    ∀ req : Request, ¬(req.method = "GET" ∧ req.path = "/") →
      handle app req = none :=
  ⟨rfl, rfl, fun req h => handle_nonroot req h⟩

/-- Witness for C6 at a concrete POST request for the root path. -/
theorem single_route_witness :
    handle app ⟨"POST", "/", [], [], ""⟩ = none :=
  single_route.2.2 ⟨"POST", "/", [], [], ""⟩ (by decide)

/-- C7: evaluation of the handler never fails: as a fallible computation it
is a single ok, and every stateful invocation terminates with the fixed
payload. -/
theorem read_root_never_fails :
    read_root_exc = Except.ok [("message", "Hello from FastAPI")] ∧
    ∀ s : ServerState, (read_root_st s).1 = [("message", "Hello from FastAPI")] :=
  ⟨rfl, fun _ => rfl⟩

/-- C8: neither dispatch nor the handler body mutates the module state, so
the application object created at module load is never modified by any
operation this file defines. -/
theorem no_state_mutation :
    (∀ (s : ServerState) (req : Request), (handleSt s req).2 = s) ∧
    (∀ s : ServerState, (read_root_st s).2 = s) :=
  ⟨fun _ _ => rfl, fun _ => rfl⟩

/-- C9: the greeting literal contains no placeholder token, substitution
leaves it unchanged for every project name, and the generated module
answers every request exactly as the template module does. -/
theorem body_substitution_invariant :
    containsTok placeholderToken.data ("Hello from FastAPI").data = false ∧
    (∀ N : String, applyTemplate N ("Hello from FastAPI") = "Hello from FastAPI") ∧
    ∀ (N : String) (req : Request), handle (generatedApp N) req = handle app req :=
  ⟨rfl, fun N => applyTemplate_greeting N, fun N req => by
    show (((generatedApp N).routes.find? _).map _) = ((app.routes.find? _).map _)
    rw [generatedApp_routes N]⟩

/-- C10: the title is exactly the placeholder token followed by the literal
suffix, so substituting any project name N yields N followed by that
suffix. -/
theorem title_substitution_shape :
    app.title = placeholderToken ++ (" API") ∧
    ∀ N : String, applyTemplate N app.title = N ++ (" API") := by
  refine ⟨rfl, fun N => ?_⟩
  obtain ⟨l⟩ := N
  rfl
